import Mathlib

/-
  Shallow embedding of check_urbackup (src/check_urbackup.py, version 1.2),
  a monitoring probe that evaluates UrBackup client backup records and folds
  them into one OK/WARNING/CRITICAL verdict.

  Modelling conventions:
  - A client record (a Python dict produced by the server API) is the structure
    ClientData.  The two keys that may be absent from the dict, file_disabled
    and image_disabled, are Option Bool with none standing for an absent key;
    every other key is required (a missing one would raise KeyError, outside
    the scope of the claims).
  - Timestamps are Int seconds since the epoch.  datetime.now() is passed in
    explicitly as the parameter now.
  - datetime.strftime of %x %X is locale dependent, so the rendering of a
    timestamp to text is passed in as a parameter fmt : Int → String; no claim
    depends on the rendered text.
  - re.compile(pattern).fullmatch(name) is passed in as a predicate
    matches : String → Bool applied to the entire name (fullmatch anchors at
    both ends; a search over substrings is not what the source calls).
  - Python float division diff_hours / 24 compared against an integer is
    modelled as exact rational arithmetic: diff_hours lies in [0, 23], and for
    such small magnitudes the double-precision quotient compares to an integer
    exactly as the rational quotient does.
  - Python int(x) on a non-negative float and // agree, so
    int(diff.seconds / 60 / 60) is modelled as integer floor division.
  - The timedelta normalisation of Python keeps 0 ≤ seconds < 86400 with the
    day count carrying the sign, which is the emod of Lean on Int.
-/

namespace CheckUrbackup

/-- Embeds class BackupStatus(Enum) with members OK = 0, WARNING = 1,
CRITICAL = 2 (lines 23-26). -/
inductive BackupStatus where
  | OK
  | WARNING
  | CRITICAL
deriving DecidableEq, Repr

/-- Embeds class BackupStatusResponse (lines 29-35): a status paired with a
description used when the status is not OK. -/
structure BackupStatusResponse where
  status : BackupStatus
  error : String
deriving DecidableEq, Repr

/-- Embeds the client record dict handed to get_status by the UrBackup server
wrapper.  file_disabled and image_disabled model optional keys (none = the key
is absent from the dict); all other keys are required. -/
structure ClientData where
  name : String
  online : Bool
  file_ok : Bool
  image_ok : Bool
  lastbackup : Int
  lastbackup_image : Int
  file_disabled : Option Bool
  image_disabled : Option Bool
deriving DecidableEq, Repr

/-- Python truthiness of the optional integer arguments maxfiledays and
maximagedays: None and 0 are falsy, every other integer is truthy (used by the
guards on lines 74-75). -/
def pyTruthy : Option Int → Bool
  | none => false
  | some d => d != 0

/-- Rendering of a Python bool inside an f-string: True or False. -/
def pyBoolRepr (b : Bool) : String :=
  if b then "True" else "False"

/-- Embeds is_file_old (lines 118-123).  The source computes
diff = datetime.now() - last_backup, then diff_hours = int(diff.seconds/60/60)
and returns diff_hours / 24 > max_days and not disabled.  Note diff.seconds is
only the sub-day remainder of the timedelta (0 ≤ seconds < 86400), not the
total elapsed time; the embedding reproduces that faithfully via emod.  The
field read client_data["file_disabled"] presumes the key is present, which
get_status (lines 43-46) has always arranged before the call; the read is
modelled as getD false. -/
def is_file_old (now : Int) (client_data : ClientData) (max_days : Int) : Bool :=
  let disabled := client_data.file_disabled.getD false
  let diff := now - client_data.lastbackup
  let diff_seconds := diff % 86400
  let diff_hours := diff_seconds / 60 / 60
  decide ((diff_hours : ℚ) / 24 > (max_days : ℚ)) && !disabled

/-- Embeds is_image_old (lines 126-131), identical to is_file_old with the
image fields. -/
def is_image_old (now : Int) (client_data : ClientData) (max_days : Int) : Bool :=
  let disabled := client_data.image_disabled.getD false
  let diff := now - client_data.lastbackup_image
  let diff_seconds := diff % 86400
  let diff_hours := diff_seconds / 60 / 60
  decide ((diff_hours : ℚ) / 24 > (max_days : ℚ)) && !disabled

/-- Embeds the failed-flag / status-text computation for one backup type
(lines 49-57 for file, duplicated verbatim on lines 60-68 for image):
the type failed with text No recent backup when its ok flag is false and it is
not disabled; otherwise it did not fail, with text OK when the ok flag is true
and text Disabled when the type is disabled. -/
def backup_flags (ok disabled : Bool) : Bool × String :=
  if !ok && !disabled then (true, "No recent backup")
  else if ok then (false, "OK")
  else (false, "Disabled")

/-- Embeds get_status (lines 41-115).  The first component of the result is
the client dict after the call: lines 43-46 mutate the input dict, inserting
file_disabled = False and image_disabled = False when those keys are absent.
The second component is the BackupStatusResponse returned on line 115. -/
def get_status (now : Int) (fmt : Int → String) (client_data : ClientData)
    (maxfiledays maximagedays : Option Int) : ClientData × BackupStatusResponse :=
  -- lines 43-46: default the optional disabled keys in place
  let client_data :=
    { client_data with
        file_disabled := some (client_data.file_disabled.getD false),
        image_disabled := some (client_data.image_disabled.getD false) }
  -- lines 49-57
  let fflags := backup_flags client_data.file_ok (client_data.file_disabled.getD false)
  let file_failed := fflags.1
  let file_str := fflags.2
  -- lines 60-68
  let iflags := backup_flags client_data.image_ok (client_data.image_disabled.getD false)
  let image_failed := iflags.1
  let image_str := iflags.2
  -- lines 70-75; the guards are Python truthiness of the optional arguments,
  -- and in the truthy branch the argument is some nonzero integer, so getD 0
  -- merely unwraps it
  let client_online := client_data.online
  let client_name := client_data.name
  let last_file_backup := client_data.lastbackup
  let last_image_backup := client_data.lastbackup_image
  let file_old :=
    if pyTruthy maxfiledays then is_file_old now client_data (maxfiledays.getD 0) else false
  let image_old :=
    if pyTruthy maximagedays then is_image_old now client_data (maximagedays.getD 0) else false
  -- lines 84-95
  let any_backup_failed := file_failed || image_failed
  let any_backup_old := file_old || image_old
  let client_status :=
    if !client_online then
      if any_backup_failed || any_backup_old then BackupStatus.CRITICAL
      else BackupStatus.WARNING
    else
      if !any_backup_failed && !any_backup_old then BackupStatus.OK
      else BackupStatus.CRITICAL
  -- lines 98-114
  let client_details : List String :=
    if client_status ≠ BackupStatus.OK then
      ["<b>HostName: " ++ client_name ++ "</b>, Online: " ++ pyBoolRepr client_online]
      ++ (if file_old then ["<b>Last Filebackup: " ++ fmt last_file_backup ++ "</b>"] else [])
      ++ (if file_failed then ["<b>Status Filebackup: " ++ file_str ++ "</b>"] else [])
      ++ (if image_old then ["<b>Last Imagebackup: " ++ fmt last_image_backup ++ "</b>"] else [])
      ++ (if image_failed then ["<b>Status Imagebackup: " ++ image_str ++ "</b>"] else [])
    else []
  let data := String.intercalate (", ") client_details
  (client_data, ⟨client_status, data⟩)

/-- The per-client verdict produced by get_status. -/
def statusOf (now : Int) (fmt : Int → String) (mf mi : Option Int) (c : ClientData) :
    BackupStatus :=
  (get_status now fmt c mf mi).2.status

/-- The per-client detail text produced by get_status. -/
def errorOf (now : Int) (fmt : Int → String) (mf mi : Option Int) (c : ClientData) :
    String :=
  (get_status now fmt c mf mi).2.error

/-- Whether either backup type of the record counts as failed in get_status
(lines 49-68 and 84). -/
def anyFailed (c : ClientData) : Bool :=
  (backup_flags c.file_ok (c.file_disabled.getD false)).1
  || (backup_flags c.image_ok (c.image_disabled.getD false)).1

/-- Whether either backup type of the record counts as old in get_status
(lines 74-75 and 85). -/
def anyOld (now : Int) (mf mi : Option Int) (c : ClientData) : Bool :=
  (if pyTruthy mf then is_file_old now c (mf.getD 0) else false)
  || (if pyTruthy mi then is_image_old now c (mi.getD 0) else false)

/-- Embeds the count dict built by get_global_status (lines 140-145): one
counter per status value plus the key all. -/
structure GlobalCount where
  ok : Nat
  warning : Nat
  critical : Nat
  all : Nat
deriving DecidableEq, Repr

/-- Embeds the two increments on lines 149-150: bump the counter of the
verdict just computed, then bump the counter under the key all. -/
def bumpCount (g : GlobalCount) (s : BackupStatus) : GlobalCount :=
  let g :=
    match s with
    | BackupStatus.OK => { g with ok := g.ok + 1 }
    | BackupStatus.WARNING => { g with warning := g.warning + 1 }
    | BackupStatus.CRITICAL => { g with critical := g.critical + 1 }
  { g with all := g.all + 1 }

/-- The loop state of get_global_status: the running overall status, the
accumulated detail text and the counters. -/
structure AggState where
  status : BackupStatus
  details : String
  count : GlobalCount
deriving Repr

/-- Embeds one iteration of the loop of get_global_status (lines 146-159):
skip the client unless the compiled pattern fully matches its name; evaluate
it, bump the counters; an OK verdict contributes nothing further; a WARNING
verdict upgrades the overall status only when it is not already CRITICAL and
appends the detail text plus a newline; otherwise the overall status becomes
CRITICAL and the detail text is appended as well. -/
def aggStep (now : Int) (fmt : Int → String) (fullmatch : String → Bool)
    (mf mi : Option Int) (st : AggState) (client : ClientData) : AggState :=
  if fullmatch client.name then
    let status := (get_status now fmt client mf mi).2
    let count := bumpCount st.count status.status
    if status.status = BackupStatus.OK then
      { st with count := count }
    else if status.status = BackupStatus.WARNING ∧ st.status ≠ BackupStatus.CRITICAL then
      { status := BackupStatus.WARNING
        details := st.details ++ status.error ++ "\n"
        count := count }
    else
      { status := BackupStatus.CRITICAL
        details := st.details ++ status.error ++ "\n"
        count := count }
  else st

/-- Embeds get_global_status (lines 136-160).  The source reads the two age
limits from the parsed global args; they are threaded here as mf and mi.  The
compiled regex fullmatch is the predicate fullmatch. -/
def get_global_status (now : Int) (fmt : Int → String) (fullmatch : String → Bool)
    (client_array : List ClientData) (mf mi : Option Int) :
    BackupStatus × String × GlobalCount :=
  let init : AggState :=
    { status := BackupStatus.OK, details := "", count := ⟨0, 0, 0, 0⟩ }
  let fin := client_array.foldl (aggStep now fmt fullmatch mf mi) init
  (fin.status, fin.details, fin.count)

/-- Embeds check_positive (lines 163-167): the argparse type that rejects
non-positive integers for the two age limits. -/
def check_positive (value : Int) : Except String Int :=
  if value ≤ 0 then Except.error ("invalid positive int value")
  else Except.ok value

/-- Subscripting a BackupStatus member, as the report lines 185, 189 and 193
do with expressions such as status[BackupStatus.OK]: an Enum member defines no
item access, so Python raises TypeError. -/
def backupStatusSubscript (_s : BackupStatus) (_key : String) : Except String Nat :=
  Except.error ("TypeError: BackupStatus object is not subscriptable")

/-- Embeds the report branches inside the try block (lines 184-194), given the
triple returned by get_global_status on line 183.  The result is some
(printed lines, exit code) when a branch runs sys.exit, none when control
falls through the if chain, and an error when a TypeError propagates - which
every branch does on its first subscript of the status enum value. -/
def cliReport (status : BackupStatus) (details : String) :
    Except String (Option (List String × Nat)) := do
  if status = BackupStatus.CRITICAL then
    let a ← backupStatusSubscript status ("BackupStatus.OK")
    let b ← backupStatusSubscript status ("all")
    let c ← backupStatusSubscript status ("BackupStatus.WARNING")
    let d ← backupStatusSubscript status ("BackupStatus.CRITICAL")
    pure (some ([toString a ++ "/" ++ toString b ++ " OK, " ++ toString c
                  ++ " WARNING, " ++ toString d ++ " CRITICAL", details], 2))
  else if status = BackupStatus.WARNING then
    let a ← backupStatusSubscript status ("BackupStatus.OK")
    let b ← backupStatusSubscript status ("all")
    let c ← backupStatusSubscript status ("BackupStatus.WARNING")
    pure (some ([toString a ++ "/" ++ toString b ++ " OK, " ++ toString c
                  ++ " WARNING", details], 1))
  else if status = BackupStatus.OK then
    let a ← backupStatusSubscript status ("BackupStatus.OK")
    let b ← backupStatusSubscript status ("all")
    pure (some ([toString a ++ "/" ++ toString b ++ " OK"], 0))
  else
    pure none

/-- Embeds the tail of the module (lines 179-198) from the point where the
aggregation result of line 183 is in hand: run the report branches; a
SystemExit from inside the try is not an Exception and terminates the process
with that code; any Exception is caught on line 195, printing the error, after
which line 197 prints UNKOWN and line 198 exits with code 3.  The count
binding of line 183 is never consulted by the report lines - they subscript
the status value instead, which is the defect this embedding preserves. -/
def cliRun (status : BackupStatus) (details : String) (_count : GlobalCount) :
    List String × Nat :=
  match cliReport status details with
  | Except.ok (some r) => r
  | Except.ok none => (["UNKOWN"], 3)
  | Except.error e => (["Error Occured:  " ++ e, "UNKOWN"], 3)

/-- A concrete timestamp rendering, standing in for the locale dependent
strftime when the theorems need a closed instance. -/
def tsR : Int → String :=
  fun t => toString t

/-- The monotonic merge of the running overall status with one new verdict, as
performed by lines 151-158: an OK verdict leaves the running status alone, a
WARNING verdict upgrades it unless it is already CRITICAL, and anything else
forces CRITICAL. -/
def mergeStatus (g s : BackupStatus) : BackupStatus :=
  if s = BackupStatus.OK then g
  else if s = BackupStatus.WARNING ∧ g ≠ BackupStatus.CRITICAL then BackupStatus.WARNING
  else BackupStatus.CRITICAL

/-- Concatenation of detail blocks, each followed by a line break. -/
def detailConcat : List String → String
  | [] => ""
  | e :: rest => e ++ "\n" ++ detailConcat rest

/-- The verdict of get_status, written in terms of the online flag and the
failed / old summaries of the record. -/
theorem statusOf_eq (now : Int) (fmt : Int → String) (mf mi : Option Int) (c : ClientData) :
    statusOf now fmt mf mi c =
      if !c.online then
        if anyFailed c || anyOld now mf mi c then BackupStatus.CRITICAL
        else BackupStatus.WARNING
      else
        if !anyFailed c && !anyOld now mf mi c then BackupStatus.OK
        else BackupStatus.CRITICAL := rfl

/-- is_file_old reads only the lastbackup and file_disabled fields, and the
defaulting of the disabled keys by get_status does not change what it sees. -/
theorem is_file_old_default (now : Int) (c : ClientData) (d : Int) (n : String)
    (onl fo io : Bool) (lbi : Int) (idis : Option Bool) :
    is_file_old now
      { name := n, online := onl, file_ok := fo, image_ok := io,
        lastbackup := c.lastbackup, lastbackup_image := lbi,
        file_disabled := some (c.file_disabled.getD false), image_disabled := idis } d
      = is_file_old now c d := rfl

/-- is_image_old reads only the lastbackup_image and image_disabled fields,
and the defaulting of the disabled keys by get_status does not change what it
sees. -/
theorem is_image_old_default (now : Int) (c : ClientData) (d : Int) (n : String)
    (onl fo io : Bool) (lb : Int) (fdis : Option Bool) :
    is_image_old now
      { name := n, online := onl, file_ok := fo, image_ok := io,
        lastbackup := lb, lastbackup_image := c.lastbackup_image,
        file_disabled := fdis, image_disabled := some (c.image_disabled.getD false) } d
      = is_image_old now c d := rfl

/-- Joining no detail lines yields the empty string. -/
theorem intercalate_nil_eq : String.intercalate (", ") [] = "" := rfl

/-- Joining a single detail line yields that line. -/
theorem intercalate_single_eq (a : String) : String.intercalate (", ") [a] = a := rfl

/-- The detail text of get_status: empty for an OK verdict, otherwise the
header followed by the conditional per-type lines, comma joined. -/
theorem errorOf_eq (now : Int) (fmt : Int → String) (mf mi : Option Int) (c : ClientData) :
    errorOf now fmt mf mi c =
      if statusOf now fmt mf mi c = BackupStatus.OK then ""
      else
        String.intercalate (", ")
          (["<b>HostName: " ++ c.name ++ "</b>, Online: " ++ pyBoolRepr c.online]
            ++ (if (if pyTruthy mf then is_file_old now c (mf.getD 0) else false)
                then ["<b>Last Filebackup: " ++ fmt c.lastbackup ++ "</b>"] else [])
            ++ (if (backup_flags c.file_ok (c.file_disabled.getD false)).1
                then ["<b>Status Filebackup: "
                        ++ (backup_flags c.file_ok (c.file_disabled.getD false)).2 ++ "</b>"]
                else [])
            ++ (if (if pyTruthy mi then is_image_old now c (mi.getD 0) else false)
                then ["<b>Last Imagebackup: " ++ fmt c.lastbackup_image ++ "</b>"] else [])
            ++ (if (backup_flags c.image_ok (c.image_disabled.getD false)).1
                then ["<b>Status Imagebackup: "
                        ++ (backup_flags c.image_ok (c.image_disabled.getD false)).2 ++ "</b>"]
                else [])) := by
  cases hff : (backup_flags c.file_ok (c.file_disabled.getD false)).1 <;>
    cases hig : (backup_flags c.image_ok (c.image_disabled.getD false)).1 <;>
      cases hfo : (if pyTruthy mf then is_file_old now c (mf.getD 0) else false) <;>
        cases hio : (if pyTruthy mi then is_image_old now c (mi.getD 0) else false) <;>
          cases hon : c.online <;>
            simp [errorOf, statusOf, get_status, is_file_old_default, is_image_old_default,
              hff, hig, hfo, hio, hon, intercalate_nil_eq]

/-- A client whose name the pattern does not fully match leaves the loop state
untouched. -/
theorem aggStep_not_match (now : Int) (fmt : Int → String) (fullmatch : String → Bool)
    (mf mi : Option Int) (st : AggState) (client : ClientData)
    (h : fullmatch client.name = false) :
    aggStep now fmt fullmatch mf mi st client = st := by
  simp [aggStep, h]

/-- The overall status after one loop iteration is the monotonic merge of the
running status with the verdict of the client, when the client matches. -/
theorem aggStep_status (now : Int) (fmt : Int → String) (fullmatch : String → Bool)
    (mf mi : Option Int) (st : AggState) (client : ClientData) :
    (aggStep now fmt fullmatch mf mi st client).status =
      if fullmatch client.name then mergeStatus st.status (statusOf now fmt mf mi client)
      else st.status := by
  by_cases hm : fullmatch client.name
  · simp only [aggStep, hm, if_pos, if_true]
    cases hs : (get_status now fmt client mf mi).2.status <;>
      simp [mergeStatus, statusOf, hs] <;> split <;> simp_all
  · simp [aggStep, hm]

/-- The counters after one loop iteration: bumped by the verdict of the client
when the client matches, untouched otherwise. -/
theorem aggStep_count (now : Int) (fmt : Int → String) (fullmatch : String → Bool)
    (mf mi : Option Int) (st : AggState) (client : ClientData) :
    (aggStep now fmt fullmatch mf mi st client).count =
      if fullmatch client.name then bumpCount st.count (statusOf now fmt mf mi client)
      else st.count := by
  by_cases hm : fullmatch client.name
  · simp only [aggStep, hm, if_pos, if_true, statusOf]
    split <;> simp [statusOf] <;> split <;> rfl
  · simp [aggStep, hm]

/-- The detail text after one loop iteration: extended by the detail of the
client plus a newline exactly when the client matches and its verdict is not
OK. -/
theorem aggStep_details (now : Int) (fmt : Int → String) (fullmatch : String → Bool)
    (mf mi : Option Int) (st : AggState) (client : ClientData) :
    (aggStep now fmt fullmatch mf mi st client).details =
      if fullmatch client.name ∧ statusOf now fmt mf mi client ≠ BackupStatus.OK
      then st.details ++ errorOf now fmt mf mi client ++ "\n"
      else st.details := by
  by_cases hm : fullmatch client.name
  · cases hs : (get_status now fmt client mf mi).2.status <;>
      simp [aggStep, statusOf, errorOf, hm, hs] <;> split <;> simp_all
  · simp [aggStep, hm]

/-- Merging a new verdict into a CRITICAL running status never leaves
CRITICAL. -/
theorem mergeStatus_critical (s : BackupStatus) :
    mergeStatus BackupStatus.CRITICAL s = BackupStatus.CRITICAL := by
  cases s <;> rfl

/-- The monotonic merge is left commutative: folding two verdicts into a
running status in either order gives the same status. -/
theorem mergeStatus_lcomm (g a b : BackupStatus) :
    mergeStatus (mergeStatus g a) b = mergeStatus (mergeStatus g b) a := by
  cases g <;> cases a <;> cases b <;> rfl

/-- The overall status of the aggregation loop is a fold of the monotonic
merge over the verdicts of the matching clients. -/
theorem foldl_status (now : Int) (fmt : Int → String) (fullmatch : String → Bool)
    (mf mi : Option Int) (l : List ClientData) :
    ∀ st : AggState,
      (l.foldl (aggStep now fmt fullmatch mf mi) st).status =
        l.foldl
          (fun g c =>
            if fullmatch c.name then mergeStatus g (statusOf now fmt mf mi c) else g)
          st.status := by
  induction l with
  | nil => intro st; rfl
  | cons x xs ih =>
      intro st
      rw [List.foldl_cons, List.foldl_cons, ih, aggStep_status]

/-- The counters of the aggregation loop count the matching clients, overall
and per verdict. -/
theorem foldl_count (now : Int) (fmt : Int → String) (fullmatch : String → Bool)
    (mf mi : Option Int) (l : List ClientData) :
    ∀ st : AggState,
      (l.foldl (aggStep now fmt fullmatch mf mi) st).count =
        { ok := st.count.ok
            + l.countP (fun c => fullmatch c.name
                && (statusOf now fmt mf mi c == BackupStatus.OK)),
          warning := st.count.warning
            + l.countP (fun c => fullmatch c.name
                && (statusOf now fmt mf mi c == BackupStatus.WARNING)),
          critical := st.count.critical
            + l.countP (fun c => fullmatch c.name
                && (statusOf now fmt mf mi c == BackupStatus.CRITICAL)),
          all := st.count.all + l.countP (fun c => fullmatch c.name) } := by
  induction l with
  | nil => intro st; simp
  | cons x xs ih =>
      intro st
      rw [List.foldl_cons, ih, aggStep_count]
      by_cases hm : fullmatch x.name
      · cases hs : statusOf now fmt mf mi x <;>
          simp [bumpCount, List.countP_cons, hm, hs] <;> omega
      · simp [List.countP_cons, hm]

/-- The detail text of the aggregation loop is the concatenation, in input
order, of one block plus line break per matching client with a verdict other
than OK. -/
theorem foldl_details (now : Int) (fmt : Int → String) (fullmatch : String → Bool)
    (mf mi : Option Int) (l : List ClientData) :
    ∀ st : AggState,
      (l.foldl (aggStep now fmt fullmatch mf mi) st).details =
        st.details
          ++ detailConcat
              ((l.filter (fun c => fullmatch c.name
                  && !(statusOf now fmt mf mi c == BackupStatus.OK))).map
                (errorOf now fmt mf mi)) := by
  induction l with
  | nil =>
      intro st
      show st.details = st.details ++ ""
      cases hd : st.details
      simp [String.append]
  | cons x xs ih =>
      intro st
      rw [List.foldl_cons, ih, aggStep_details]
      by_cases hm : fullmatch x.name
      · by_cases hs : statusOf now fmt mf mi x = BackupStatus.OK
        · rw [if_neg (fun hc => hc.2 hs)]
          simp [List.filter_cons, hm, hs]
        · rw [if_pos ⟨hm, hs⟩]
          have hb : (fullmatch x.name
              && !(statusOf now fmt mf mi x == BackupStatus.OK)) = true := by
            simp [hm, hs]
          rw [List.filter_cons, if_pos hb, List.map_cons]
          simp only [detailConcat]
          rw [← String.append_assoc, ← String.append_assoc]
      · rw [if_neg (fun hc => hm hc.1)]
        simp [List.filter_cons, hm]

/-- Folding the aggregation step over a list visits exactly the clients whose
names the pattern fully matches. -/
theorem foldl_filter_eq (now : Int) (fmt : Int → String) (fullmatch : String → Bool)
    (mf mi : Option Int) (l : List ClientData) :
    ∀ st : AggState,
      l.foldl (aggStep now fmt fullmatch mf mi) st =
        (l.filter (fun c => fullmatch c.name)).foldl
          (aggStep now fmt fullmatch mf mi) st := by
  induction l with
  | nil => intro st; rfl
  | cons x xs ih =>
      intro st
      by_cases hm : fullmatch x.name
      · rw [List.foldl_cons, List.filter_cons, if_pos hm, List.foldl_cons, ih]
      · rw [List.foldl_cons, List.filter_cons,
          if_neg (by simpa using hm),
          aggStep_not_match now fmt fullmatch mf mi st x (by simpa using hm), ih]

/-- Folding a left commutative step function gives the same result on any two
permutations of the input list. -/
theorem foldl_lcomm_perm {α β : Type} {f : β → α → β}
    (hf : ∀ g a b, f (f g a) b = f (f g b) a) :
    ∀ {l l' : List α}, l.Perm l' → ∀ g : β, l.foldl f g = l'.foldl f g := by
  intro l l' hp
  induction hp with
  | nil => intro g; rfl
  | cons x _ ih => intro g; rw [List.foldl_cons, List.foldl_cons, ih]
  | swap x y l =>
      intro g
      rw [List.foldl_cons, List.foldl_cons, List.foldl_cons, List.foldl_cons, hf]
  | trans _ _ ih1 ih2 => intro g; rw [ih1, ih2]

/-- Every matching client has exactly one of the three verdicts, so the three
per-verdict counters partition the count of matching clients. -/
theorem countP_verdict_partition (now : Int) (fmt : Int → String)
    (fullmatch : String → Bool) (mf mi : Option Int) (l : List ClientData) :
    l.countP (fun c => fullmatch c.name && (statusOf now fmt mf mi c == BackupStatus.OK))
      + l.countP (fun c => fullmatch c.name
          && (statusOf now fmt mf mi c == BackupStatus.WARNING))
      + l.countP (fun c => fullmatch c.name
          && (statusOf now fmt mf mi c == BackupStatus.CRITICAL))
      = l.countP (fun c => fullmatch c.name) := by
  induction l with
  | nil => rfl
  | cons x xs ih =>
      simp only [List.countP_cons]
      by_cases hm : fullmatch x.name
      · cases hs : statusOf now fmt mf mi x <;> simp [hm, hs] <;> omega
      · simp only [Bool.and_eq_true] at *
        simp [hm]
        omega

/-- The first component of get_global_status is the monotone-merge fold of the
verdicts of the matching clients, starting from OK. -/
theorem global_status_char (now : Int) (fmt : Int → String) (fullmatch : String → Bool)
    (mf mi : Option Int) (l : List ClientData) :
    (get_global_status now fmt fullmatch l mf mi).1 =
      l.foldl
        (fun g c => if fullmatch c.name then mergeStatus g (statusOf now fmt mf mi c) else g)
        BackupStatus.OK := by
  simp only [get_global_status]
  rw [foldl_status]

/-- The count component of get_global_status, per verdict and overall. -/
theorem global_count_char (now : Int) (fmt : Int → String) (fullmatch : String → Bool)
    (mf mi : Option Int) (l : List ClientData) :
    (get_global_status now fmt fullmatch l mf mi).2.2 =
      { ok := l.countP (fun c => fullmatch c.name
            && (statusOf now fmt mf mi c == BackupStatus.OK)),
        warning := l.countP (fun c => fullmatch c.name
            && (statusOf now fmt mf mi c == BackupStatus.WARNING)),
        critical := l.countP (fun c => fullmatch c.name
            && (statusOf now fmt mf mi c == BackupStatus.CRITICAL)),
        all := l.countP (fun c => fullmatch c.name) } := by
  simp only [get_global_status]
  rw [foldl_count]
  simp

/-- The detail component of get_global_status: the blocks of the matching
non-OK clients, in input order, each followed by a line break. -/
theorem global_details_char (now : Int) (fmt : Int → String) (fullmatch : String → Bool)
    (mf mi : Option Int) (l : List ClientData) :
    (get_global_status now fmt fullmatch l mf mi).2.1 =
      detailConcat
        ((l.filter (fun c => fullmatch c.name
            && !(statusOf now fmt mf mi c == BackupStatus.OK))).map
          (errorOf now fmt mf mi)) := by
  simp only [get_global_status]
  rw [foldl_details]
  cases hd : detailConcat
      ((l.filter (fun c => fullmatch c.name
          && !(statusOf now fmt mf mi c == BackupStatus.OK))).map
        (errorOf now fmt mf mi))
  simp [String.append]

/-- With any maximum age of at least one day, is_file_old can never return
true: the sub-day remainder of the timedelta yields at most 23 whole hours, and
23 / 24 of a day never exceeds a threshold of one day or more. -/
theorem is_file_old_vacuous (now : Int) (c : ClientData) (d : Int) (hd : 1 ≤ d) :
    is_file_old now c d = false := by
  simp only [is_file_old]
  have h0 : (0 : Int) ≤ (now - c.lastbackup) % 86400 :=
    Int.emod_nonneg _ (by norm_num)
  have h1 : (now - c.lastbackup) % 86400 < 86400 :=
    Int.emod_lt_of_pos _ (by norm_num)
  have h2 : (now - c.lastbackup) % 86400 / 60 / 60 ≤ 23 := by omega
  have hnot : ¬ (((((now - c.lastbackup) % 86400 / 60 / 60 : Int) : ℚ) / 24) > (d : ℚ)) := by
    rw [gt_iff_lt, lt_div_iff (by norm_num : (0 : ℚ) < 24), not_lt]
    have hq : ((((now - c.lastbackup) % 86400 / 60 / 60 : Int) : ℚ)) ≤ 23 := by
      exact_mod_cast h2
    have hdq : (1 : ℚ) ≤ (d : ℚ) := by exact_mod_cast hd
    linarith
  simp [hnot]

/-- With any maximum age of at least one day, is_image_old can never return
true, for the same reason as is_file_old. -/
theorem is_image_old_vacuous (now : Int) (c : ClientData) (d : Int) (hd : 1 ≤ d) :
    is_image_old now c d = false := by
  simp only [is_image_old]
  have h0 : (0 : Int) ≤ (now - c.lastbackup_image) % 86400 :=
    Int.emod_nonneg _ (by norm_num)
  have h1 : (now - c.lastbackup_image) % 86400 < 86400 :=
    Int.emod_lt_of_pos _ (by norm_num)
  have h2 : (now - c.lastbackup_image) % 86400 / 60 / 60 ≤ 23 := by omega
  have hnot : ¬ (((((now - c.lastbackup_image) % 86400 / 60 / 60 : Int) : ℚ) / 24)
      > (d : ℚ)) := by
    rw [gt_iff_lt, lt_div_iff (by norm_num : (0 : ℚ) < 24), not_lt]
    have hq : ((((now - c.lastbackup_image) % 86400 / 60 / 60 : Int) : ℚ)) ≤ 23 := by
      exact_mod_cast h2
    have hdq : (1 : ℚ) ≤ (d : ℚ) := by exact_mod_cast hd
    linarith
  simp [hnot]

/-- An enabled, online client whose two backups both succeeded ten days ago. -/
def c1client : ClientData :=
  { name := "client-a", online := true, file_ok := true, image_ok := true,
    lastbackup := 0, lastbackup_image := 0,
    file_disabled := some false, image_disabled := some false }

/-- C1: refuted by the code.  With both backups taken at time 0, now = 864000
(ten full days later) and a maximum age of 1 day, the claim demands that both
types be old (10 days > 1 day, enabled), yet is_file_old and is_image_old
return false and the client evaluates to OK: the staleness test reads only the
sub-day remainder of the elapsed time, so a positive maximum age is never
exceeded. -/
theorem c1_staleness_check_never_fires :
    is_file_old 864000 c1client 1 = false
    ∧ is_image_old 864000 c1client 1 = false
    ∧ statusOf 864000 tsR (some 1) (some 1) c1client = BackupStatus.OK := by
  have hf := is_file_old_vacuous 864000 c1client 1 (by norm_num)
  have hi := is_image_old_vacuous 864000 c1client 1 (by norm_num)
  refine ⟨hf, hi, ?_⟩
  rw [statusOf_eq]
  simp only [c1client] at hf hi
  simp [anyFailed, anyOld, c1client, backup_flags, pyTruthy, hf, hi]

/-- C2: for every client record, the verdict of get_status is determined by
the cross of the online state with whether any enabled backup type failed or
is old: online and clean gives OK with empty detail; online with any failure
or staleness gives CRITICAL; offline and clean gives WARNING with a non-empty
detail that carries the client name; offline with any failure or staleness
gives CRITICAL. -/
theorem c2_verdict_table (now : Int) (fmt : Int → String) (mf mi : Option Int)
    (c : ClientData) :
    (c.online = true → anyFailed c = false → anyOld now mf mi c = false →
        statusOf now fmt mf mi c = BackupStatus.OK ∧ errorOf now fmt mf mi c = "")
    ∧ (c.online = true → (anyFailed c = true ∨ anyOld now mf mi c = true) →
        statusOf now fmt mf mi c = BackupStatus.CRITICAL)
    ∧ (c.online = false → anyFailed c = false → anyOld now mf mi c = false →
        statusOf now fmt mf mi c = BackupStatus.WARNING
        ∧ errorOf now fmt mf mi c
            = "<b>HostName: " ++ c.name ++ "</b>, Online: " ++ pyBoolRepr false
        ∧ errorOf now fmt mf mi c ≠ "")
    ∧ (c.online = false → (anyFailed c = true ∨ anyOld now mf mi c = true) →
        statusOf now fmt mf mi c = BackupStatus.CRITICAL) := by
  refine ⟨?_, ?_, ?_, ?_⟩
  · intro ho hf hold
    have hst : statusOf now fmt mf mi c = BackupStatus.OK := by
      rw [statusOf_eq]; simp [ho, hf, hold]
    exact ⟨hst, by rw [errorOf_eq, if_pos hst]⟩
  · intro ho h
    rw [statusOf_eq]
    rcases h with h | h <;> simp [ho, h]
  · intro ho hf hold
    have hst : statusOf now fmt mf mi c = BackupStatus.WARNING := by
      rw [statusOf_eq]; simp [ho, hf, hold]
    have hff : (backup_flags c.file_ok (c.file_disabled.getD false)).1 = false := by
      have := hf; simp only [anyFailed, Bool.or_eq_false_iff] at this; exact this.1
    have hig : (backup_flags c.image_ok (c.image_disabled.getD false)).1 = false := by
      have := hf; simp only [anyFailed, Bool.or_eq_false_iff] at this; exact this.2
    have hfo : (if pyTruthy mf then is_file_old now c (mf.getD 0) else false) = false := by
      have := hold; simp only [anyOld, Bool.or_eq_false_iff] at this; exact this.1
    have hio : (if pyTruthy mi then is_image_old now c (mi.getD 0) else false) = false := by
      have := hold; simp only [anyOld, Bool.or_eq_false_iff] at this; exact this.2
    have herr : errorOf now fmt mf mi c
        = "<b>HostName: " ++ c.name ++ "</b>, Online: " ++ pyBoolRepr false := by
      rw [errorOf_eq, if_neg (by simp [hst])]
      simp [hff, hig, hfo, hio, ho, intercalate_single_eq]
    refine ⟨hst, herr, ?_⟩
    intro hempty
    rw [herr] at hempty
    have hlen := congrArg String.length hempty
    rw [String.length_append, String.length_append, String.length_append] at hlen
    have h13 : ("<b>HostName: ").length = 13 := rfl
    have h14 : ("</b>, Online: ").length = 14 := rfl
    have h5 : (pyBoolRepr false).length = 5 := rfl
    have h0 : ("" : String).length = 0 := rfl
    omega
  · intro ho h
    rw [statusOf_eq]
    rcases h with h | h <;> simp [ho, h]

/-- An offline client whose two backups both succeeded and whose disabled keys
are absent. -/
def cWarnB : ClientData :=
  { name := "host-b", online := false, file_ok := true, image_ok := true,
    lastbackup := 0, lastbackup_image := 0,
    file_disabled := none, image_disabled := none }

/-- C2 witness: an offline, otherwise healthy client evaluates to WARNING with
the header as detail text, hence non-empty and carrying the name host-b. -/
theorem c2_witness :
    statusOf 0 tsR none none cWarnB = BackupStatus.WARNING
    ∧ errorOf 0 tsR none none cWarnB
        = "<b>HostName: " ++ cWarnB.name ++ "</b>, Online: " ++ pyBoolRepr false
    ∧ errorOf 0 tsR none none cWarnB ≠ "" :=
  (c2_verdict_table 0 tsR none none cWarnB).2.2.1 rfl rfl rfl

/-- C3: the overall status is monotone during aggregation: once the running
loop state is CRITICAL, folding any further clients - WARNING or OK verdicts
included - leaves it CRITICAL. -/
theorem c3_critical_is_absorbing (now : Int) (fmt : Int → String)
    (fullmatch : String → Bool) (mf mi : Option Int) (st : AggState)
    (l : List ClientData) (h : st.status = BackupStatus.CRITICAL) :
    (l.foldl (aggStep now fmt fullmatch mf mi) st).status = BackupStatus.CRITICAL := by
  rw [foldl_status, h]
  induction l with
  | nil => rfl
  | cons x xs ih =>
      rw [List.foldl_cons]
      by_cases hm : fullmatch x.name
      · rw [if_pos hm, mergeStatus_critical]
        exact ih
      · rw [if_neg hm]
        exact ih

/-- C3 witness: folding the WARNING client host-b into a CRITICAL loop state
leaves the overall status CRITICAL. -/
theorem c3_witness :
    (List.foldl (aggStep 0 tsR (fun _ => true) none none)
        { status := BackupStatus.CRITICAL, details := "", count := ⟨0, 0, 0, 0⟩ }
        [cWarnB]).status = BackupStatus.CRITICAL :=
  c3_critical_is_absorbing 0 tsR (fun _ => true) none none _ [cWarnB] rfl

/-- C4: a disabled backup type contributes neither a failure nor a staleness
finding: its failed flag is false whatever its ok flag says, its staleness
test returns false whatever its age, and the verdict of the record does not
change when the ok flag and backup time of that type are replaced by anything
else.  Stated for each of the two types. -/
theorem c4_disabled_contributes_nothing (now : Int) (fmt : Int → String)
    (mf mi : Option Int) (c : ClientData) (b : Bool) (t d : Int) :
    (c.file_disabled = some true →
        (backup_flags c.file_ok true).1 = false
        ∧ is_file_old now c d = false
        ∧ statusOf now fmt mf mi { c with file_ok := b, lastbackup := t }
            = statusOf now fmt mf mi c)
    ∧ (c.image_disabled = some true →
        (backup_flags c.image_ok true).1 = false
        ∧ is_image_old now c d = false
        ∧ statusOf now fmt mf mi { c with image_ok := b, lastbackup_image := t }
            = statusOf now fmt mf mi c) := by
  constructor
  · intro h
    refine ⟨?_, ?_, ?_⟩
    · cases hok : c.file_ok <;> simp [backup_flags]
    · simp [is_file_old, h]
    · have h1 : anyFailed { c with file_ok := b, lastbackup := t } = anyFailed c := by
        simp only [anyFailed, h]
        cases b <;> cases hok : c.file_ok <;> simp [backup_flags]
      have h2 : anyOld now mf mi { c with file_ok := b, lastbackup := t }
          = anyOld now mf mi c := by
        simp only [anyOld]
        simp [is_file_old, is_image_old, h]
      rw [statusOf_eq, statusOf_eq, h1, h2]
  · intro h
    refine ⟨?_, ?_, ?_⟩
    · cases hok : c.image_ok <;> simp [backup_flags]
    · simp [is_image_old, h]
    · have h1 : anyFailed { c with image_ok := b, lastbackup_image := t } = anyFailed c := by
        simp only [anyFailed, h]
        cases b <;> cases hok : c.image_ok <;> simp [backup_flags]
      have h2 : anyOld now mf mi { c with image_ok := b, lastbackup_image := t }
          = anyOld now mf mi c := by
        simp only [anyOld]
        simp [is_file_old, is_image_old, h]
      rw [statusOf_eq, statusOf_eq, h1, h2]

/-- An online client with a failed file backup whose file type is disabled. -/
def cDis : ClientData :=
  { name := "host-d", online := true, file_ok := false, image_ok := true,
    lastbackup := 0, lastbackup_image := 0,
    file_disabled := some true, image_disabled := some false }

/-- C4 witness: for the client host-d with file backups disabled and
file_ok = false, the file type is not failed, not old, and replacing its ok
flag and age does not change the verdict. -/
theorem c4_witness :
    (backup_flags cDis.file_ok true).1 = false
    ∧ is_file_old 5 cDis 1 = false
    ∧ statusOf 5 tsR none none { cDis with file_ok := true, lastbackup := 99 }
        = statusOf 5 tsR none none cDis :=
  (c4_disabled_contributes_nothing 5 tsR none none cDis true 99 1).1 rfl

/-- C5: a record participates in aggregation exactly when the pattern fully
matches its name - aggregating a list gives the same overall status, detail
text and counts as aggregating only its matching records - and when nothing
matches, the result is OK with empty detail and all counters zero. -/
theorem c5_fullmatch_filtering (now : Int) (fmt : Int → String)
    (fullmatch : String → Bool) (mf mi : Option Int) (l : List ClientData) :
    get_global_status now fmt fullmatch l mf mi
      = get_global_status now fmt fullmatch (l.filter (fun c => fullmatch c.name)) mf mi
    ∧ (l.filter (fun c => fullmatch c.name) = [] →
        get_global_status now fmt fullmatch l mf mi
          = (BackupStatus.OK, "", ⟨0, 0, 0, 0⟩)) := by
  constructor
  · simp only [get_global_status]
    rw [foldl_filter_eq]
  · intro h
    simp only [get_global_status]
    rw [foldl_filter_eq, h]
    rfl

/-- An online healthy client whose name matches no pattern used in the
witness. -/
def cAlpha : ClientData :=
  { name := "alpha", online := true, file_ok := true, image_ok := true,
    lastbackup := 0, lastbackup_image := 0,
    file_disabled := none, image_disabled := none }

/-- C5 witness: with a pattern matching only the name x, the client alpha is
excluded and aggregation returns OK, empty detail and zero counters. -/
theorem c5_witness :
    get_global_status 0 tsR (fun n => n == "x") [cAlpha] none none
      = (BackupStatus.OK, "", ⟨0, 0, 0, 0⟩) :=
  (c5_fullmatch_filtering 0 tsR (fun n => n == "x") none none [cAlpha]).2 rfl

/-- C6: refuted by the code.  The report lines subscript the overall status
enum value instead of the count mapping, so every branch raises TypeError
before printing, the except clause swallows it, and the process exits with the
unknown code 3 for OK, WARNING and CRITICAL outcomes alike - in particular an
empty fleet, whose aggregation yields OK, exits 3 instead of 0. -/
theorem c6_exit_codes_all_unknown :
    (cliRun BackupStatus.OK "" ⟨0, 0, 0, 0⟩).2 = 3
    ∧ (cliRun BackupStatus.WARNING ("w") ⟨0, 1, 0, 1⟩).2 = 3
    ∧ (cliRun BackupStatus.CRITICAL ("c") ⟨0, 0, 1, 1⟩).2 = 3
    ∧ cliRun (get_global_status 0 tsR (fun _ => true) [] none none).1
        (get_global_status 0 tsR (fun _ => true) [] none none).2.1
        (get_global_status 0 tsR (fun _ => true) [] none none).2.2
        = (["Error Occured:  TypeError: BackupStatus object is not subscriptable",
            "UNKOWN"], 3) :=
  ⟨rfl, rfl, rfl, rfl⟩

/-- An online healthy client whose optional disabled keys are both absent. -/
def c7client : ClientData :=
  { name := "host-c", online := true, file_ok := true, image_ok := true,
    lastbackup := 0, lastbackup_image := 0,
    file_disabled := none, image_disabled := none }

/-- C7 counterexample: get_status does not leave every record unchanged - on a
record whose disabled keys are absent, the call inserts both keys with value
false, so the record after the call differs from the record before it. -/
theorem c7_counterexample :
    (get_status 0 tsR c7client none none).1 ≠ c7client := by
  decide

/-- C7 as amended: get_status changes no field value that was present before
the call; its only effect on the record is to insert the two optional disabled
keys with value false when they are absent, so a second call returns the
record of the first call unchanged. -/
theorem c7_record_mutation (now : Int) (fmt : Int → String) (c : ClientData)
    (mf mi : Option Int) :
    (get_status now fmt c mf mi).1
        = { c with file_disabled := some (c.file_disabled.getD false),
                   image_disabled := some (c.image_disabled.getD false) }
    ∧ (get_status now fmt ((get_status now fmt c mf mi).1) mf mi).1
        = (get_status now fmt c mf mi).1 :=
  ⟨rfl, rfl⟩

/-- C8: aggregation is order independent in its overall status and counters:
any two permutations of the input records give the same overall status and the
same count mapping. -/
theorem c8_perm_invariant (now : Int) (fmt : Int → String) (fullmatch : String → Bool)
    (mf mi : Option Int) {l l' : List ClientData} (hp : l.Perm l') :
    (get_global_status now fmt fullmatch l mf mi).1
        = (get_global_status now fmt fullmatch l' mf mi).1
    ∧ (get_global_status now fmt fullmatch l mf mi).2.2
        = (get_global_status now fmt fullmatch l' mf mi).2.2 := by
  constructor
  · rw [global_status_char, global_status_char]
    refine foldl_lcomm_perm ?_ hp BackupStatus.OK
    intro g a b
    by_cases h1 : fullmatch a.name <;> by_cases h2 : fullmatch b.name <;>
      simp [h1, h2, mergeStatus_lcomm]
  · rw [global_count_char, global_count_char]
    simp only [GlobalCount.mk.injEq]
    exact ⟨hp.countP_eq _, hp.countP_eq _, hp.countP_eq _, hp.countP_eq _⟩

/-- An online client whose two backups both succeeded. -/
def cOnlineOK : ClientData :=
  { name := "host-a", online := true, file_ok := true, image_ok := true,
    lastbackup := 0, lastbackup_image := 0,
    file_disabled := none, image_disabled := none }

/-- C8 witness: swapping an OK client and a WARNING client changes neither
the overall status nor the counters. -/
theorem c8_witness :
    ((get_global_status 0 tsR (fun _ => true) [cOnlineOK, cWarnB] none none).1
        = (get_global_status 0 tsR (fun _ => true) [cWarnB, cOnlineOK] none none).1)
    ∧ ((get_global_status 0 tsR (fun _ => true) [cOnlineOK, cWarnB] none none).2.2
        = (get_global_status 0 tsR (fun _ => true) [cWarnB, cOnlineOK] none none).2.2) :=
  c8_perm_invariant 0 tsR (fun _ => true) none none
    (List.Perm.swap cWarnB cOnlineOK [])

/-- C9: the aggregate detail text is exactly the concatenation, in input
order, of one detail block followed by a line break per matching client whose
verdict is not OK - each such client appended exactly once, a WARNING client
arriving after the overall status is already CRITICAL included. -/
theorem c9_details_in_input_order (now : Int) (fmt : Int → String)
    (fullmatch : String → Bool) (mf mi : Option Int) (l : List ClientData) :
    (get_global_status now fmt fullmatch l mf mi).2.1 =
      detailConcat
        ((l.filter (fun c => fullmatch c.name
            && !(statusOf now fmt mf mi c == BackupStatus.OK))).map
          (errorOf now fmt mf mi)) :=
  global_details_char now fmt fullmatch mf mi l

/-- C10: after aggregation the three per-status counters sum to the counter
under the key all, and that counter equals the number of input records whose
name the pattern fully matches. -/
theorem c10_count_partition (now : Int) (fmt : Int → String)
    (fullmatch : String → Bool) (mf mi : Option Int) (l : List ClientData) :
    ((get_global_status now fmt fullmatch l mf mi).2.2.ok
        + (get_global_status now fmt fullmatch l mf mi).2.2.warning
        + (get_global_status now fmt fullmatch l mf mi).2.2.critical
      = (get_global_status now fmt fullmatch l mf mi).2.2.all)
    ∧ (get_global_status now fmt fullmatch l mf mi).2.2.all
        = (l.filter (fun c => fullmatch c.name)).length := by
  rw [global_count_char]
  constructor
  · simpa using countP_verdict_partition now fmt fullmatch mf mi l
  · simp [List.countP_eq_length_filter]

end CheckUrbackup
